import Mathlib

/-!
Verification development for the model-registry module of a chat API client
library (src/src/models.rs). The module defines a closed enumeration of
supported model identifiers with a bidirectional string mapping, a static
maximum-context-size table, a token-bias map and a message-role tag. Each
Rust item is embedded as a Lean definition below, and the stated properties
of the module are proved about those definitions.
-/

/-- The `Model` enum of src/src/models.rs: the closed set of supported
OpenAI model identifiers, one constructor per Rust variant. -/
inductive Model where
  | Gpt3_5Turbo
  | Gpt_4
  | Gpt_4_32k
  | Gpt_4Turbo
  | Gpt_4o
  | Gpt_4Turbo_Vision
deriving DecidableEq, Repr, Fintype

/-- Embedding of `Model::max_tokens`: the static context-length table,
one arm per variant exactly as in the Rust `match`. -/
def Model.max_tokens : Model → Nat
  | .Gpt3_5Turbo => 4096
  | .Gpt_4 => 8192
  | .Gpt_4_32k => 32768
  | .Gpt_4o => 128000
  | .Gpt_4Turbo => 128000
  | .Gpt_4Turbo_Vision => 128000

/-- Embedding of `impl Display for Model`: the canonical wire string,
one arm per variant exactly as in the Rust `match`. -/
def Model.toString : Model → String
  | .Gpt3_5Turbo => "gpt-3.5-turbo"
  | .Gpt_4 => "gpt-4"
  | .Gpt_4_32k => "gpt-4-32k"
  | .Gpt_4o => "gpt-4o"
  | .Gpt_4Turbo => "gpt-4-1106-preview"
  | .Gpt_4Turbo_Vision => "gpt-4-vision-preview"

/-- The `ModelError` enum: the single parse-error kind, carrying the
offending input string verbatim. -/
inductive ModelError where
  | UnsupportedModel (s : String)
deriving DecidableEq, Repr

/-- Embedding of `impl FromStr for Model` (`from_str`): an exact,
case-sensitive match on the input string, arms in source order; any
non-matching input produces `ModelError::UnsupportedModel(s)`. -/
def Model.from_str (s : String) : Except ModelError Model :=
  match s with
  | "gpt-3.5-turbo" => .ok .Gpt3_5Turbo
  | "gpt-4" => .ok .Gpt_4
  | "gpt-4-32k" => .ok .Gpt_4_32k
  | "gpt-4o" => .ok .Gpt_4o
  | "gpt-4-1106-preview" => .ok .Gpt_4Turbo
  | "gpt-4-vision-preview" => .ok .Gpt_4Turbo_Vision
  | _ => .error (.UnsupportedModel s)

/-- The strings `from_str` matches, in the order of its arms. -/
def supportedStrings : List String :=
  ["gpt-3.5-turbo", "gpt-4", "gpt-4-32k", "gpt-4o",
   "gpt-4-1106-preview", "gpt-4-vision-preview"]

/-- The six variants of `Model`, in declaration order. -/
def allModels : List Model :=
  [.Gpt3_5Turbo, .Gpt_4, .Gpt_4_32k, .Gpt_4Turbo, .Gpt_4o, .Gpt_4Turbo_Vision]

/-- Embedding of the derived serde serializer for `Model`: each variant
encodes to the scalar string given by its `#[serde(rename = ...)]`
attribute, taken verbatim from the Rust enum declaration. -/
def Model.serdeSerialize : Model → String
  | .Gpt3_5Turbo => "gpt-3.5-turbo"
  | .Gpt_4 => "gpt-4"
  | .Gpt_4_32k => "gpt-4-32k"
  | .Gpt_4Turbo => "gpt-4-1106-preview"
  | .Gpt_4o => "gpt-4o"
  | .Gpt_4Turbo_Vision => "gpt-4-vision-preview"

/-- Embedding of the derived serde deserializer for `Model`: a scalar
string equal to a rename string decodes to the matching variant; anything
else is a deserialization error (modelled as `none`). -/
def Model.serdeDeserialize (s : String) : Option Model :=
  match s with
  | "gpt-3.5-turbo" => some .Gpt3_5Turbo
  | "gpt-4" => some .Gpt_4
  | "gpt-4-32k" => some .Gpt_4_32k
  | "gpt-4-1106-preview" => some .Gpt_4Turbo
  | "gpt-4o" => some .Gpt_4o
  | "gpt-4-vision-preview" => some .Gpt_4Turbo_Vision
  | _ => none

/-- The `Role` enum: the closed 3-value message-role tag. -/
inductive Role where
  | System
  | User
  | Assistant
deriving DecidableEq, Repr, Fintype

/-- Embedding of the derived serde serializer for `Role` under
`#[serde(rename_all = "lowercase")]`: each variant encodes to its
lowercased name. -/
def Role.serdeSerialize : Role → String
  | .System => "system"
  | .User => "user"
  | .Assistant => "assistant"

/-- Embedding of the derived serde deserializer for `Role`: exactly the
three lowercase names decode; anything else is a deserialization error
(modelled as `none`). -/
def Role.serdeDeserialize (s : String) : Option Role :=
  match s with
  | "system" => some .System
  | "user" => some .User
  | "assistant" => some .Assistant
  | _ => none

/-- The `LogitBias` struct: a map from token id (`u32`, modelled as `Nat`)
to bias value (`f64`, modelled as `Rat`; the map stores and returns the
values untouched, performing no arithmetic on them, so the choice of
numeric carrier does not affect any property proved here). The backing
`HashMap` is modelled as an association list in which an insert for an
existing key overwrites the earlier entry. -/
structure LogitBias where
  biases : List (Nat × Rat)
deriving DecidableEq, Repr

/-- `HashMap::new`: the empty bias map. -/
def LogitBias.empty : LogitBias := ⟨[]⟩

/-- `HashMap::insert`: adds (or overwrites) the entry for key `k`. -/
def LogitBias.insert (m : LogitBias) (k : Nat) (v : Rat) : LogitBias :=
  ⟨(k, v) :: m.biases.filter fun p => p.1 != k⟩

/-- `HashMap::get`: looks up the bias for token id `k`; `none` when the
key is absent. -/
def LogitBias.lookup (m : LogitBias) (k : Nat) : Option Rat :=
  (m.biases.find? fun p => p.1 == k).map Prod.snd

/-- The example bias map of the spec, entries {42 → 2.5, 123 → -1.3}. -/
def logitBiasExample : LogitBias :=
  (LogitBias.empty.insert 42 (5/2)).insert 123 (-13/10)

/-! ### Helper lemmas shared between claims -/

/-- Any string outside the supported list parses to the typed error
carrying that string verbatim. -/
theorem from_str_error_of_not_mem (s : String) (h : s ∉ supportedStrings) :
    Model.from_str s = .error (.UnsupportedModel s) := by
  unfold Model.from_str
  split
  · exact absurd (by simp [supportedStrings]) h
  · exact absurd (by simp [supportedStrings]) h
  · exact absurd (by simp [supportedStrings]) h
  · exact absurd (by simp [supportedStrings]) h
  · exact absurd (by simp [supportedStrings]) h
  · exact absurd (by simp [supportedStrings]) h
  · rfl

/-- Every string accepted by `from_str` is in the supported list. -/
theorem mem_of_from_str_ok (s : String) (v : Model)
    (h : Model.from_str s = .ok v) : s ∈ supportedStrings := by
  by_contra hn
  rw [from_str_error_of_not_mem s hn] at h
  exact Except.noConfusion h

/-- Any string other than the three lowercase role names fails to decode. -/
theorem role_deserialize_of_not_mem (s : String)
    (h : s ∉ ["system", "user", "assistant"]) : Role.serdeDeserialize s = none := by
  unfold Role.serdeDeserialize
  split
  · exact absurd (by simp) h
  · exact absurd (by simp) h
  · exact absurd (by simp) h
  · rfl

/-! ### The claims -/

/-- Claim C1: for every `Model` variant `v`, parsing the canonical wire
string produced by the Display implementation yields `v` back:
`from_str (toString v) = ok v`. -/
theorem model_parse_display_roundtrip (v : Model) :
    Model.from_str (Model.toString v) = Except.ok v := by
  cases v <;> rfl

/-- Claim C2: for every string `s` accepted by `from_str`, converting the
parsed variant back through Display returns `s` exactly. -/
theorem model_display_parse_roundtrip (s : String) (v : Model)
    (h : Model.from_str s = Except.ok v) : Model.toString v = s := by
  unfold Model.from_str at h
  split at h
  all_goals first
    | exact Except.noConfusion h
    | (injection h with h2; subst h2; simp_all [Model.toString])

/-- Witness for claim C2 at the concrete input "gpt-4". -/
theorem model_display_parse_roundtrip_witness :
    Model.from_str "gpt-4" = Except.ok Model.Gpt_4 ∧
      Model.toString Model.Gpt_4 = "gpt-4" :=
  ⟨rfl, model_display_parse_roundtrip "gpt-4" Model.Gpt_4 rfl⟩

/-- Claim C3: every string that matches no canonical wire string — near
misses, alternate casing, whitespace-padded forms — parses to the error
`UnsupportedModel(s)` carrying the input verbatim, never a default
variant. -/
theorem model_parse_rejects_unsupported (s : String)
    (h : s ∉ supportedStrings) :
    Model.from_str s = Except.error (ModelError.UnsupportedModel s) :=
  from_str_error_of_not_mem s h

/-- Witness for claim C3 at the concrete inputs "invalid-model", "GPT-4"
and " gpt-4". -/
theorem model_parse_rejects_unsupported_witness :
    Model.from_str "invalid-model"
        = Except.error (ModelError.UnsupportedModel "invalid-model") ∧
      Model.from_str "GPT-4"
        = Except.error (ModelError.UnsupportedModel "GPT-4") ∧
      Model.from_str " gpt-4"
        = Except.error (ModelError.UnsupportedModel " gpt-4") :=
  ⟨model_parse_rejects_unsupported "invalid-model" (by decide),
   model_parse_rejects_unsupported "GPT-4" (by decide),
   model_parse_rejects_unsupported " gpt-4" (by decide)⟩

/-- Claim C4: serde encode-then-decode is the identity on every variant;
decoding a scalar equal to a canonical wire string yields the matching
variant; and encoding `Gpt3_5Turbo` yields exactly "gpt-3.5-turbo". -/
theorem model_serde_roundtrip :
    (∀ v : Model, Model.serdeDeserialize (Model.serdeSerialize v) = some v) ∧
      (∀ v : Model, Model.serdeDeserialize (Model.toString v) = some v) ∧
      Model.serdeSerialize Model.Gpt3_5Turbo = "gpt-3.5-turbo" :=
  ⟨fun v => by cases v <;> rfl, fun v => by cases v <;> rfl, rfl⟩

/-- Claim C5: `max_tokens` is a total deterministic function on the closed
set of variants, returning a strictly positive value on every variant. -/
theorem max_tokens_total_positive (v : Model) : 0 < Model.max_tokens v := by
  cases v <;> decide

/-- Claim C6: the specific example values: `parse "gpt-4"` yields `Gpt_4`
whose Display string is "gpt-4" and whose max_tokens is 8192;
`parse "gpt-4-32k"` succeeds with max_tokens 32768; and
`parse "gpt-4-vision-preview"` succeeds with max_tokens 128000. -/
theorem model_example_values :
    Model.from_str "gpt-4" = Except.ok Model.Gpt_4 ∧
      Model.toString Model.Gpt_4 = "gpt-4" ∧
      Model.max_tokens Model.Gpt_4 = 8192 ∧
      Model.from_str "gpt-4-32k" = Except.ok Model.Gpt_4_32k ∧
      Model.max_tokens Model.Gpt_4_32k = 32768 ∧
      Model.from_str "gpt-4-vision-preview" = Except.ok Model.Gpt_4Turbo_Vision ∧
      Model.max_tokens Model.Gpt_4Turbo_Vision = 128000 := by
  refine ⟨rfl, rfl, rfl, rfl, rfl, rfl, rfl⟩

/-- Claim C7: the variant-to-string mapping is a bijection over the closed
set: Display is injective (distinct variants map to distinct strings), and
every supported string parses to exactly one variant. -/
theorem model_string_bijection :
    (∀ v w : Model, Model.toString v = Model.toString w → v = w) ∧
      (∀ s : String, s ∈ supportedStrings →
        ∃! v : Model, Model.from_str s = Except.ok v) := by
  constructor
  · decide
  · intro s hs
    fin_cases hs <;> exact ⟨_, rfl, fun y hy => (Except.ok.inj hy).symm⟩

/-- Claim C8: each `Role` serializes to exactly its fixed lowercase wire
string, serialization is total, and deserialization accepts exactly those
three strings (yielding the value back) and fails on anything else. -/
theorem role_wire_strings :
    (Role.serdeSerialize Role.System = "system" ∧
      Role.serdeSerialize Role.User = "user" ∧
      Role.serdeSerialize Role.Assistant = "assistant") ∧
      (∀ r : Role, Role.serdeDeserialize (Role.serdeSerialize r) = some r) ∧
      (∀ s : String, s ∉ ["system", "user", "assistant"] →
        Role.serdeDeserialize s = none) :=
  ⟨⟨rfl, rfl, rfl⟩, fun r => by cases r <;> rfl,
   fun s h => role_deserialize_of_not_mem s h⟩

/-- Claim C9: in the example bias map {42 → 2.5, 123 → -1.3}, lookup of 42
returns 2.5, lookup of 123 returns -1.3, lookup of the absent key 999
returns an explicit absence (`none`), distinguishable from a zero bias;
and in general lookup of any key never inserted returns absence, not
zero. -/
theorem logit_bias_lookup :
    logitBiasExample.lookup 42 = some (5/2) ∧
      logitBiasExample.lookup 123 = some (-13/10) ∧
      logitBiasExample.lookup 999 = none ∧
      (∀ (m : LogitBias) (k : Nat),
        (∀ p ∈ m.biases, p.1 ≠ k) → m.lookup k = none) := by
  refine ⟨rfl, rfl, rfl, ?_⟩
  intro m k h
  have hf : m.biases.find? (fun p => p.1 == k) = none :=
    List.find?_eq_none.mpr fun p hp => by simpa using h p hp
  simp [LogitBias.lookup, hf]

/-- Claim C10: the closed set comprises exactly six variants; `from_str`
succeeds exactly on the six canonical strings; the Display table and the
serde rename table agree on every variant; and `max_tokens` of
`Gpt3_5Turbo` is 4096 and of `Gpt_4o` is 128000. -/
theorem model_registry_closed_set :
    (∀ v : Model, v ∈ allModels) ∧
      allModels.Nodup ∧
      allModels.length = 6 ∧
      (∀ s : String,
        (∃ v : Model, Model.from_str s = Except.ok v) ↔ s ∈ supportedStrings) ∧
      (∀ v : Model, Model.toString v = Model.serdeSerialize v) ∧
      Model.max_tokens Model.Gpt3_5Turbo = 4096 ∧
      Model.max_tokens Model.Gpt_4o = 128000 := by
  refine ⟨by decide, by decide, rfl, ?_, by decide, rfl, rfl⟩
  intro s
  constructor
  · rintro ⟨v, hv⟩
    exact mem_of_from_str_ok s v hv
  · intro hs
    fin_cases hs <;> exact ⟨_, rfl⟩
